import Mathlib

/- Shallow embedding of the TealTurtle repository: the gesture classifiers of
src/components/PoseDetection.tsx, the fist classifier of
src/components/PoseDetection.jsx, the chat client of
src/components/hooks/useOpenAI.ts (and its PoseDetection.tsx-local variant),
and the two dialogue control loops (the detectPose ticks and the speech
recognition onresult handlers).  JavaScript numbers are modelled as rationals,
absent object fields as Option, and DOM/network interactions as explicit
inputs; handlers emit a list of effects instead of performing I/O. -/

/-- Substring search on character lists, modelling JavaScript
String.prototype.includes. -/
def sublistSearch (pat : List Char) : List Char → Bool
  | [] => pat.isEmpty
  | c :: rest => pat.isPrefixOf (c :: rest) || sublistSearch pat rest

/-- Model of JavaScript name.includes(pat) used by isFistClosed. -/
def nameIncludes (name pat : String) : Bool :=
  sublistSearch pat.toList name.toList

/-- Model of JavaScript String.prototype.toLowerCase, used by the self-echo
check in recognition.onresult. -/
def lowerStr (s : String) : String :=
  ⟨s.data.map Char.toLower⟩

/-- PoseNet keypoint (interface Keypoint of PoseDetection.tsx): part name,
position and confidence score; position is inlined as x and y. -/
structure Keypoint where
  part : String
  x : ℚ
  y : ℚ
  score : ℚ
deriving DecidableEq, Repr

/-- PoseNet pose (interface Pose of PoseDetection.tsx): the keypoint list. -/
structure Pose where
  keypoints : List Keypoint
deriving DecidableEq, Repr

/-- Model of pose.keypoints.find(kp => kp.part === name): the first keypoint
with the given part name, or none when it is absent. -/
def findPart (pose : Pose) (name : String) : Option Keypoint :=
  pose.keypoints.find? (fun kp => kp.part == name)

/-- isHandRaised of PoseDetection.tsx (and the identical copy in
PoseDetection.jsx): looks up leftWrist, rightWrist and nose; returns false
when any of the three is absent, else true iff either wrist y is strictly
below the nose y numerically. -/
def isHandRaised (pose : Pose) : Bool :=
  match findPart pose "leftWrist", findPart pose "rightWrist",
        findPart pose "nose" with
  | some leftWrist, some rightWrist, some nose =>
      decide (leftWrist.y < nose.y) || decide (rightWrist.y < nose.y)
  | _, _, _ => false

/-- isHeadTilted of PoseDetection.tsx (and the identical copy in
PoseDetection.jsx): false when either ear is absent, else true iff the
absolute ear y difference strictly exceeds 20. -/
def isHeadTilted (pose : Pose) : Bool :=
  match findPart pose "leftEar", findPart pose "rightEar" with
  | some leftEar, some rightEar =>
      decide (|leftEar.y - rightEar.y| > 20)
  | _, _ => false

/-- The gesture-to-prompt selection inside detectPose: userInput starts empty,
isHandRaised is checked first, then isHeadTilted; the empty string means no
gesture fired. -/
def classifyPrompt (pose : Pose) : String :=
  if isHandRaised pose then "The child raised their hand. How should I respond?"
  else if isHeadTilted pose then "The child tilted their head. Do they feel dizzy?"
  else ""

/-- ml5 hand keypoint used by isFistClosed in PoseDetection.jsx: a landmark
name with coordinates. -/
structure HandKeypoint where
  name : String
  x : ℚ
  y : ℚ
deriving DecidableEq, Repr

/-- The window.fingerTips and window.knuckles globals declared at the top of
PoseDetection.jsx and assigned inside isFistClosed. -/
structure WindowState where
  fingerTips : List HandKeypoint
  knuckles : List HandKeypoint
deriving DecidableEq, Repr

/-- The object literal returned by isFistClosed: a result flag and the
optional fist centre point. -/
structure FistResult where
  result : Bool
  points : Option (ℚ × ℚ)
deriving DecidableEq, Repr

/-- hand.keypoints.filter(point => point.name contains the substring tip). -/
def fingerTipsOf (kps : List HandKeypoint) : List HandKeypoint :=
  kps.filter (fun point => nameIncludes point.name "tip")

/-- hand.keypoints.filter(point => point.name contains the substring mcp). -/
def knucklesOf (kps : List HandKeypoint) : List HandKeypoint :=
  kps.filter (fun point => nameIncludes point.name "mcp")

/-- reduce((sum, p) => sum + p.y, 0) / length: the mean y of a keypoint
group. -/
def avgY (l : List HandKeypoint) : ℚ :=
  (l.map (fun p => p.y)).sum / (l.length : ℚ)

/-- reduce((sum, p) => sum + p.x, 0) / length: the mean x of a keypoint
group. -/
def avgX (l : List HandKeypoint) : ℚ :=
  (l.map (fun p => p.x)).sum / (l.length : ℚ)

/-- isFistClosed of PoseDetection.jsx.  The input is the accessible keypoint
list of the hand, or none when hand.keypoints cannot be read (the try/catch
branch, which leaves the window globals unchanged and returns result false).
On a readable hand the filtered fingertip and knuckle lists are stored into
window.fingerTips and window.knuckles; when both have exactly 5 entries and
the mean fingertip y strictly exceeds the mean knuckle y the fist is closed
and the centre point is returned, otherwise result is false. -/
def isFistClosed (w : WindowState) (hand : Option (List HandKeypoint)) :
    WindowState × FistResult :=
  match hand with
  | none => (w, { result := false, points := none })
  | some kps =>
    if (fingerTipsOf kps).length = 5 ∧ (knucklesOf kps).length = 5 then
      if avgY (fingerTipsOf kps) > avgY (knucklesOf kps) then
        ({ fingerTips := fingerTipsOf kps, knuckles := knucklesOf kps },
         { result := true,
           points := some (avgX (fingerTipsOf kps), avgY (fingerTipsOf kps)) })
      else
        ({ fingerTips := fingerTipsOf kps, knuckles := knucklesOf kps },
         { result := false, points := none })
    else
      ({ fingerTips := fingerTipsOf kps, knuckles := knucklesOf kps },
       { result := false, points := none })

/-- The scenario pose of the spec: leftWrist at y 100, nose at y 200, all
other keypoints absent. -/
def scenarioPose : Pose :=
  { keypoints := [ { part := "leftWrist", x := 0, y := 100, score := 1 },
                   { part := "nose", x := 0, y := 200, score := 1 } ] }

/-- Claim C4, counterexample: on the spec scenario pose (leftWrist.y = 100,
nose.y = 200, everything else absent) the classifier returns false, not
HandRaised, because isHandRaised also requires the rightWrist keypoint; no
prompt is produced. -/
theorem c4_scenario_pose_not_hand_raised :
    isHandRaised scenarioPose = false ∧ classifyPrompt scenarioPose = "" := by
  decide

/-- Claim C4, amended: for every pose containing leftWrist, rightWrist and
nose keypoints, isHandRaised is true iff at least one wrist y is strictly
less than the nose y, and a raised hand yields the prompt "The child raised
their hand. How should I respond?"; a pose missing any of the three keypoints
(such as the scenario pose, whose rightWrist is absent) yields false. -/
theorem c4_hand_raised_rule :
    ∀ (pose : Pose) (lwr rwr nkp : Keypoint),
      findPart pose "leftWrist" = some lwr →
      findPart pose "rightWrist" = some rwr →
      findPart pose "nose" = some nkp →
      ((isHandRaised pose = true ↔ (lwr.y < nkp.y ∨ rwr.y < nkp.y)) ∧
       (isHandRaised pose = true →
         classifyPrompt pose = "The child raised their hand. How should I respond?")) := by
  intro pose lwr rwr nkp h1 h2 h3
  constructor
  · simp [isHandRaised, h1, h2, h3]
  · intro hr
    simp [classifyPrompt, hr]

/-- The witness pose for the amended hand-raised rule: both wrists, the nose
and an extra keypoint are present; the left wrist is above the nose. -/
def fullPose : Pose :=
  { keypoints := [ { part := "nose", x := 320, y := 200, score := 1 },
                   { part := "leftWrist", x := 100, y := 100, score := 1 },
                   { part := "rightWrist", x := 500, y := 400, score := 1 },
                   { part := "leftEar", x := 300, y := 180, score := 1 } ] }

/-- Witness for the amended claim C4 at the concrete pose fullPose. -/
theorem c4_hand_raised_rule_witness :
    (isHandRaised fullPose = true ↔
      ((100 : ℚ) < 200 ∨ (400 : ℚ) < 200)) ∧
    (isHandRaised fullPose = true →
      classifyPrompt fullPose = "The child raised their hand. How should I respond?") :=
  c4_hand_raised_rule fullPose
    { part := "leftWrist", x := 100, y := 100, score := 1 }
    { part := "rightWrist", x := 500, y := 400, score := 1 }
    { part := "nose", x := 320, y := 200, score := 1 }
    (by decide) (by decide) (by decide)

/-- Claim C6: every classifier is total on poses with missing keypoints.
isHandRaised is false when leftWrist, rightWrist or nose is absent;
isHeadTilted is false when either ear is absent; isFistClosed reports a false
result both when the hand keypoints are inaccessible and when the fingertip
or knuckle group does not have exactly 5 members; no case raises an error
(all the embedded functions are total). -/
theorem c6_classifier_totality :
    (∀ pose : Pose,
       (findPart pose "leftWrist" = none ∨ findPart pose "rightWrist" = none ∨
        findPart pose "nose" = none) → isHandRaised pose = false) ∧
    (∀ pose : Pose,
       (findPart pose "leftEar" = none ∨ findPart pose "rightEar" = none) →
       isHeadTilted pose = false) ∧
    (∀ w : WindowState, ((isFistClosed w none).2).result = false) ∧
    (∀ (w : WindowState) (kps : List HandKeypoint),
       ((fingerTipsOf kps).length ≠ 5 ∨ (knucklesOf kps).length ≠ 5) →
       ((isFistClosed w (some kps)).2).result = false) := by
  refine ⟨?_, ?_, ?_, ?_⟩
  · intro pose h
    unfold isHandRaised
    split
    · rcases h with h | h | h <;> simp_all
    · rfl
  · intro pose h
    unfold isHeadTilted
    split
    · rcases h with h | h <;> simp_all
    · rfl
  · intro w
    rfl
  · intro w kps h
    have hc : ¬((fingerTipsOf kps).length = 5 ∧ (knucklesOf kps).length = 5) := by
      rcases h with h | h
      · exact fun hcd => h hcd.1
      · exact fun hcd => h hcd.2
    simp [isFistClosed, hc]

/-- Witness for claim C6 at concrete inputs: the empty pose and the empty
hand. -/
theorem c6_classifier_totality_witness :
    isHandRaised { keypoints := [] } = false ∧
    isHeadTilted { keypoints := [] } = false ∧
    ((isFistClosed { fingerTips := [], knuckles := [] } none).2).result = false ∧
    ((isFistClosed { fingerTips := [], knuckles := [] } (some [])).2).result = false :=
  ⟨c6_classifier_totality.1 { keypoints := [] } (Or.inl rfl),
   c6_classifier_totality.2.1 { keypoints := [] } (Or.inl rfl),
   c6_classifier_totality.2.2.1 { fingerTips := [], knuckles := [] },
   c6_classifier_totality.2.2.2 { fingerTips := [], knuckles := [] } []
     (Or.inl (by decide))⟩

/-- Claim C7: with exactly 5 fingertip and exactly 5 knuckle keypoints,
isFistClosed reports closed iff the mean fingertip y strictly exceeds the
mean knuckle y; with any other count of either group it reports not
closed. -/
theorem c7_fist_mean_rule :
    (∀ (w : WindowState) (kps : List HandKeypoint),
       (fingerTipsOf kps).length = 5 → (knucklesOf kps).length = 5 →
       (((isFistClosed w (some kps)).2).result = true ↔
        avgY (fingerTipsOf kps) > avgY (knucklesOf kps))) ∧
    (∀ (w : WindowState) (kps : List HandKeypoint),
       ((fingerTipsOf kps).length ≠ 5 ∨ (knucklesOf kps).length ≠ 5) →
       ((isFistClosed w (some kps)).2).result = false) := by
  constructor
  · intro w kps h5t h5k
    simp only [isFistClosed, h5t, h5k, and_self, if_true]
    split_ifs with hgt <;> simp [hgt]
  · intro w kps h
    have hc : ¬((fingerTipsOf kps).length = 5 ∧ (knucklesOf kps).length = 5) := by
      rcases h with h | h
      · exact fun hcd => h hcd.1
      · exact fun hcd => h hcd.2
    simp [isFistClosed, hc]

/-- A hand with the 5 ml5 fingertip keypoints (at y 10) and the 5 base
knuckle keypoints (at y 0): fingertips below knuckles in screen space. -/
def demoHand : List HandKeypoint :=
  [ { name := "thumb_tip", x := 0, y := 10 },
    { name := "index_finger_tip", x := 1, y := 10 },
    { name := "middle_finger_tip", x := 2, y := 10 },
    { name := "ring_finger_tip", x := 3, y := 10 },
    { name := "pinky_finger_tip", x := 4, y := 10 },
    { name := "thumb_mcp", x := 0, y := 0 },
    { name := "index_finger_mcp", x := 1, y := 0 },
    { name := "middle_finger_mcp", x := 2, y := 0 },
    { name := "ring_finger_mcp", x := 3, y := 0 },
    { name := "pinky_finger_mcp", x := 4, y := 0 } ]

/-- demoHand with the pinky fingertip removed: only 4 fingertips. -/
def shortHand : List HandKeypoint :=
  [ { name := "thumb_tip", x := 0, y := 10 },
    { name := "index_finger_tip", x := 1, y := 10 },
    { name := "middle_finger_tip", x := 2, y := 10 },
    { name := "ring_finger_tip", x := 3, y := 10 },
    { name := "thumb_mcp", x := 0, y := 0 },
    { name := "index_finger_mcp", x := 1, y := 0 },
    { name := "middle_finger_mcp", x := 2, y := 0 },
    { name := "ring_finger_mcp", x := 3, y := 0 },
    { name := "pinky_finger_mcp", x := 4, y := 0 } ]

/-- Witness for claim C7 at the concrete hands demoHand (5 and 5 keypoints)
and shortHand (only 4 fingertips). -/
theorem c7_fist_mean_rule_witness :
    (((isFistClosed { fingerTips := [], knuckles := [] } (some demoHand)).2).result = true ↔
      avgY (fingerTipsOf demoHand) > avgY (knucklesOf demoHand)) ∧
    ((isFistClosed { fingerTips := [], knuckles := [] } (some shortHand)).2).result = false :=
  ⟨c7_fist_mean_rule.1 { fingerTips := [], knuckles := [] } demoHand
     (by decide) (by decide),
   c7_fist_mean_rule.2 { fingerTips := [], knuckles := [] } shortHand
     (Or.inl (by decide))⟩

/-- Claim C8: for every pose containing both ear keypoints, isHeadTilted is
true iff the absolute difference of the ear y coordinates strictly exceeds
20, and a difference of exactly 20 yields false. -/
theorem c8_head_tilt_rule :
    ∀ (pose : Pose) (le re : Keypoint),
      findPart pose "leftEar" = some le →
      findPart pose "rightEar" = some re →
      ((isHeadTilted pose = true ↔ |le.y - re.y| > 20) ∧
       (|le.y - re.y| = 20 → isHeadTilted pose = false)) := by
  intro pose le re h1 h2
  constructor
  · simp [isHeadTilted, h1, h2]
  · intro h20
    simp [isHeadTilted, h1, h2, h20]

/-- The witness pose for the head-tilt rule: ears at y 100 and y 150. -/
def earPose : Pose :=
  { keypoints := [ { part := "leftEar", x := 200, y := 100, score := 1 },
                   { part := "rightEar", x := 400, y := 150, score := 1 } ] }

/-- Witness for claim C8 at the concrete pose earPose. -/
theorem c8_head_tilt_rule_witness :
    (isHeadTilted earPose = true ↔ |(100 : ℚ) - 150| > 20) ∧
    (|(100 : ℚ) - 150| = 20 → isHeadTilted earPose = false) :=
  c8_head_tilt_rule earPose
    { part := "leftEar", x := 200, y := 100, score := 1 }
    { part := "rightEar", x := 400, y := 150, score := 1 }
    (by decide) (by decide)

/-- Claim C9, counterexample: calling isFistClosed on a readable hand mutates
program state outside its input, overwriting the window.fingerTips global
with the filtered fingertip list. -/
theorem c9_fist_mutates_window :
    (isFistClosed { fingerTips := [], knuckles := [] }
      (some [ { name := "thumb_tip", x := 0, y := 0 } ])).1 ≠
      { fingerTips := [], knuckles := [] } := by
  decide

/-- Claim C9, amended: the classifiers are deterministic and leave their pose
and hand inputs unchanged, and the FistClosed result does not depend on the
prior window state, but isFistClosed writes the filtered fingertip and
knuckle lists into the window.fingerTips and window.knuckles globals on every
readable hand; only the inaccessible-keypoints branch leaves the globals
unchanged. -/
theorem c9_fist_state_characterization :
    (∀ (w w2 : WindowState) (hand : Option (List HandKeypoint)),
       (isFistClosed w hand).2 = (isFistClosed w2 hand).2) ∧
    (∀ (w : WindowState) (kps : List HandKeypoint),
       (isFistClosed w (some kps)).1 =
         { fingerTips := fingerTipsOf kps, knuckles := knucklesOf kps }) ∧
    (∀ w : WindowState, (isFistClosed w none).1 = w) := by
  refine ⟨?_, ?_, ?_⟩
  · intro w w2 hand
    cases hand with
    | none => rfl
    | some kps =>
      simp only [isFistClosed]
  · intro w kps
    simp only [isFistClosed]
    split_ifs <;> rfl
  · intro w
    rfl

/-- The message object inside a chat-completion choice; content may be absent
(undefined or null in the JSON). -/
structure Msg where
  content : Option String
deriving DecidableEq, Repr

/-- One entry of the choices array; message may be absent. -/
structure Choice where
  message : Option Msg
deriving DecidableEq, Repr

/-- The parsed chat-completion response body: the choices array may be absent
altogether, and error holds data.error?.message when present. -/
structure ChatData where
  choices : Option (List Choice)
  error : Option String
deriving DecidableEq, Repr

/-- The fetch Response as far as the code inspects it: the ok flag, the HTTP
status, and the parsed JSON body (none when response.json() rejects). -/
structure HttpResponse where
  ok : Bool
  status : Nat
  json : Option ChatData
deriving DecidableEq, Repr

/-- The outcome of the network round trip: either the fetch promise rejects
(transport error) or a response arrives. -/
inductive FetchEnv where
  | netError
  | ok (r : HttpResponse)
deriving DecidableEq, Repr

/-- The fallback string returned by the useOpenAI catch branch. -/
def fallbackText : String := "I couldn\x27t process your request."

/-- The default used when the response carries no message content. -/
def noResponseText : String := "No response received."

/-- data.choices[0]?.message?.content || "No response received.": optional
chaining yields the default when the array is empty or message or content is
absent, and the JavaScript || also replaces an empty content string. -/
def contentOrDefault (choices : List Choice) : String :=
  match choices.head? with
  | none => noResponseText
  | some c0 =>
    match c0.message with
    | none => noResponseText
    | some m =>
      match m.content with
      | none => noResponseText
      | some c => if c = "" then noResponseText else c

/-- fetchAIResponse of src/components/hooks/useOpenAI.ts (the unnamed hook
variant is identical up to the persona string).  Every failure is caught
inside the function: a rejected fetch, a body that fails to parse as JSON, a
non-ok status (which throws and is immediately caught), and the TypeError
raised by data.choices[0] when the choices array is absent all end in the
catch branch, which records the error and returns the fallback text.  The
second component models whether setError was called with a message. -/
def fetchAIResponseHook (env : FetchEnv) : String × Bool :=
  match env with
  | .netError => (fallbackText, true)
  | .ok r =>
    match r.json with
    | none => (fallbackText, true)
    | some data =>
      if r.ok = false then (fallbackText, true)
      else
        match data.choices with
        | none => (fallbackText, true)
        | some choices => (contentOrDefault choices, false)

/-- fetchAIResponse local to PoseDetection.tsx: no try/catch and no ok check,
and no optional chaining, so a rejected fetch, an unparseable body, an absent
or empty choices array, or an absent message all propagate an exception to
the caller; only an absent content falls back to "No response received.". -/
def fetchAIResponseTsx (env : FetchEnv) : Except Unit String :=
  match env with
  | .netError => .error ()
  | .ok r =>
    match r.json with
    | none => .error ()
    | some data =>
      match data.choices with
      | none => .error ()
      | some choices =>
        match choices.head? with
        | none => .error ()
        | some c0 =>
          match c0.message with
          | none => .error ()
          | some m =>
            match m.content with
            | none => .ok noResponseText
            | some c => .ok (if c = "" then noResponseText else c)

/-- Helper: the optional-chaining default extraction never yields the empty
string. -/
theorem contentOrDefault_ne_empty (cs : List Choice) : contentOrDefault cs ≠ "" := by
  cases h0 : cs.head? with
  | none => simp [contentOrDefault, h0, noResponseText]
  | some c0 =>
    cases hm : c0.message with
    | none => simp [contentOrDefault, h0, hm, noResponseText]
    | some m =>
      cases hc : m.content with
      | none => simp [contentOrDefault, h0, hm, hc, noResponseText]
      | some c =>
        by_cases h : c = ""
        · simp [contentOrDefault, h0, hm, hc, h, noResponseText]
        · simp [contentOrDefault, h0, hm, hc, h]

/-- An ok response whose body parses but carries no choices array at all. -/
def okNoChoices : HttpResponse :=
  { ok := true, status := 200, json := some { choices := none, error := none } }

/-- Claim C10, counterexample: an ok response whose JSON body has no choices
array carries no message content, yet fetchAIResponse returns the catch
fallback "I couldn\x27t process your request." (data.choices[0] throws a
TypeError that lands in the catch branch), not "No response received." as the
claim states for successful calls without content. -/
theorem c10_ok_without_choices_cex :
    fetchAIResponseHook (FetchEnv.ok okNoChoices) = (fallbackText, true) ∧
    fallbackText ≠ noResponseText := by
  constructor
  · rfl
  · decide

/-- Claim C10, amended: fetchAIResponse is total and never returns the empty
string; a transport error, an unparseable body, a non-success status, and
also an ok response lacking the choices array, all return exactly
"I couldn\x27t process your request." with the error recorded; an ok response
with a choices array present returns its first message content when that is a
non-empty string and exactly "No response received." when the array is empty
or the message or content is absent or empty. -/
theorem c10_fetch_total_characterization :
    (∀ env : FetchEnv, (fetchAIResponseHook env).1 ≠ "") ∧
    (fetchAIResponseHook FetchEnv.netError = (fallbackText, true)) ∧
    (∀ r : HttpResponse, r.json = none →
       fetchAIResponseHook (FetchEnv.ok r) = (fallbackText, true)) ∧
    (∀ (r : HttpResponse) (data : ChatData), r.json = some data → r.ok = false →
       fetchAIResponseHook (FetchEnv.ok r) = (fallbackText, true)) ∧
    (∀ (r : HttpResponse) (data : ChatData), r.json = some data → r.ok = true →
       data.choices = none →
       fetchAIResponseHook (FetchEnv.ok r) = (fallbackText, true)) ∧
    (∀ (r : HttpResponse) (data : ChatData) (cs : List Choice),
       r.json = some data → r.ok = true → data.choices = some cs →
       fetchAIResponseHook (FetchEnv.ok r) = (contentOrDefault cs, false)) ∧
    (∀ cs : List Choice, contentOrDefault cs ≠ "") := by
  refine ⟨?_, rfl, ?_, ?_, ?_, ?_, contentOrDefault_ne_empty⟩
  · intro env
    cases env with
    | netError => decide
    | ok r =>
      cases hj : r.json with
      | none =>
        simp [fetchAIResponseHook, hj]
        decide
      | some data =>
        by_cases hok : r.ok = false
        · simp [fetchAIResponseHook, hj, hok]
          decide
        · cases hch : data.choices with
          | none =>
            simp [fetchAIResponseHook, hj, hok, hch]
            decide
          | some cs =>
            simp [fetchAIResponseHook, hj, hok, hch]
            exact contentOrDefault_ne_empty cs
  · intro r hj
    simp [fetchAIResponseHook, hj]
  · intro r data hj hok
    simp [fetchAIResponseHook, hj, hok]
  · intro r data hj hok hch
    simp [fetchAIResponseHook, hj, hok, hch]
  · intro r data cs hj hok hch
    simp [fetchAIResponseHook, hj, hok, hch]

/-- An ok response whose choices array is present but empty. -/
def okEmptyChoices : HttpResponse :=
  { ok := true, status := 200, json := some { choices := some [], error := none } }

/-- Witness for the amended claim C10 at concrete responses: a 500 response
and an ok response with an empty choices array. -/
theorem c10_fetch_total_characterization_witness :
    fetchAIResponseHook (FetchEnv.ok
      { ok := false, status := 500,
        json := some { choices := none, error := some "Internal server error" } }) =
      (fallbackText, true) ∧
    fetchAIResponseHook (FetchEnv.ok okEmptyChoices) = (contentOrDefault [], false) :=
  ⟨c10_fetch_total_characterization.2.2.2.1
     { ok := false, status := 500,
       json := some { choices := none, error := some "Internal server error" } }
     { choices := none, error := some "Internal server error" } rfl rfl,
   c10_fetch_total_characterization.2.2.2.2.2.1 okEmptyChoices
     { choices := some [], error := none } [] rfl rfl rfl⟩

/-- The component state the control loops touch: the isAiResponding and
aiResponse React state of PoseDetection, together with the lastAiResponse
variable declared in the speech-recognition scope. -/
structure CtrlState where
  isAiResponding : Bool
  aiResponse : String
  lastAiResponse : String
deriving DecidableEq, Repr

/-- The externally visible actions a handler performs, in order: scheduling
the next animation frame, the chat network call, speech synthesis, and the
language-detection call. -/
inductive Effect where
  | scheduleNext
  | fetchCall (prompt : String)
  | speak (text : String)
  | detectLang (text : String)
deriving DecidableEq, Repr

/-- The isAiResponding value the installed closures actually read.  detectPose
and recognition.onresult are created inside a mount-time useEffect with an
empty dependency array, so every read of the isAiResponding binding inside
them yields the value of the first render, false; setIsAiResponding writes
new component state that those already-installed closures never observe. -/
def capturedIsAiResponding : Bool := false

/-- What one detectPose tick consumes: whether the video element is ready,
whether the canvas 2d context is available, the estimated pose, and the
pending network outcome of a chat call. -/
structure TickInput where
  videoReady : Bool
  ctxOk : Bool
  pose : Pose
  world : FetchEnv
deriving Repr

/-- detectPose of PoseDetection.jsx.  Early return when the video is not
ready; return when the captured isAiResponding is set; set the busy flag;
await the pose (first suspension point); return when the canvas context is
missing or no keypoint reaches score 0.3 (the flag stays set); pick the
gesture prompt, scheduling the next frame when no gesture fired; return when
the prompt is empty or the captured flag is set; otherwise fetch the reply
via the useOpenAI hook, store it, speak it, and schedule the next frame.
This variant never calls setIsAiResponding(false). -/
def detectPoseJsx (captured : Bool) (i : TickInput) (s : CtrlState) :
    CtrlState × List Effect :=
  if !i.videoReady then (s, [])
  else if captured then (s, [])
  else
    let s1 := { s with isAiResponding := true }
    if !i.ctxOk then (s1, [])
    else if i.pose.keypoints.all (fun kp => decide (kp.score < mkRat 3 10)) then (s1, [])
    else
      let userInput := classifyPrompt i.pose
      if userInput = "" || captured then
        (s1, if userInput = "" then [Effect.scheduleNext] else [])
      else
        let res := fetchAIResponseHook i.world
        ({ s1 with aiResponse := res.1 },
         [Effect.fetchCall userInput, Effect.speak res.1, Effect.scheduleNext])

/-- detectPose of PoseDetection.tsx: same control flow as the jsx variant but
the chat call is the tsx-local fetchAIResponse, whose exceptions are caught
(skipping setAiResponse and speech), and a finally block clears the busy flag
after the try/catch on both outcomes; the next frame is scheduled after the
finally either way. -/
def detectPoseTsx (captured : Bool) (i : TickInput) (s : CtrlState) :
    CtrlState × List Effect :=
  if !i.videoReady then (s, [])
  else if captured then (s, [])
  else
    let s1 := { s with isAiResponding := true }
    if !i.ctxOk then (s1, [])
    else if i.pose.keypoints.all (fun kp => decide (kp.score < mkRat 3 10)) then (s1, [])
    else
      let userInput := classifyPrompt i.pose
      if userInput = "" || captured then
        (s1, if userInput = "" then [Effect.scheduleNext] else [])
      else
        match fetchAIResponseTsx i.world with
        | .ok aiText =>
          ({ s1 with aiResponse := aiText, isAiResponding := false },
           [Effect.fetchCall userInput, Effect.speak aiText, Effect.scheduleNext])
        | .error _ =>
          ({ s1 with isAiResponding := false },
           [Effect.fetchCall userInput, Effect.scheduleNext])

/-- recognition.onresult of listenForSpeech in PoseDetection.jsx: return when
the captured isAiResponding is set; set the busy flag; await detectLanguage;
discard the transcript when it equals lastAiResponse case-insensitively
(lastAiResponse is declared in listenForSpeech and never reassigned
afterwards); otherwise handleDetectedSpeech fetches the reply via the
useOpenAI hook, stores it in aiResponse and speaks it.  The busy flag is
never cleared. -/
def onresultJsx (captured : Bool) (spokenText : String) (env : FetchEnv)
    (s : CtrlState) : CtrlState × List Effect :=
  if captured then (s, [])
  else
    let s1 := { s with isAiResponding := true }
    if lowerStr spokenText = lowerStr s.lastAiResponse then
      (s1, [Effect.detectLang spokenText])
    else
      let res := fetchAIResponseHook env
      ({ s1 with aiResponse := res.1 },
       [Effect.detectLang spokenText, Effect.fetchCall spokenText,
        Effect.speak res.1])

/-- recognition.onresult of the unnamed useSpeechRecognition hook: identical
to the PoseDetection.jsx handler except that its handleDetectedSpeech stores
the reply into lastAiResponse before speaking it. -/
def onresultHook (captured : Bool) (spokenText : String) (env : FetchEnv)
    (s : CtrlState) : CtrlState × List Effect :=
  if captured then (s, [])
  else
    let s1 := { s with isAiResponding := true }
    if lowerStr spokenText = lowerStr s.lastAiResponse then
      (s1, [Effect.detectLang spokenText])
    else
      let res := fetchAIResponseHook env
      ({ s1 with aiResponse := res.1, lastAiResponse := res.1 },
       [Effect.detectLang spokenText, Effect.fetchCall spokenText,
        Effect.speak res.1])

/-- The component state at mount. -/
def initialState : CtrlState :=
  { isAiResponding := false, aiResponse := "", lastAiResponse := "" }

/-- A state in which an exchange is in flight: the busy flag is set. -/
def busyState : CtrlState :=
  { isAiResponding := true, aiResponse := "", lastAiResponse := "" }

/-- A successful chat response whose reply text is "Hi there". -/
def envHello : FetchEnv :=
  .ok { ok := true, status := 200,
        json := some { choices := some [ { message := some { content := some "Hi there" } } ],
                       error := none } }

/-- A detection tick with a ready video, an available context, the raised
hand pose fullPose, and the given network outcome. -/
def gestureTick (env : FetchEnv) : TickInput :=
  { videoReady := true, ctxOk := true, pose := fullPose, world := env }

/-- A pose whose only keypoint has confidence 0: no clear pose detected. -/
def blurPose : Pose :=
  { keypoints := [ { part := "nose", x := 0, y := 0, score := 0 } ] }

/-- A detection tick whose pose has no keypoint of score at least 0.3. -/
def blurTick : TickInput :=
  { videoReady := true, ctxOk := true, pose := blurPose, world := envHello }

/-- Helper: fullPose passes the no-clear-pose filter. -/
theorem fullPose_not_blurry :
    (fullPose.keypoints.all (fun kp => decide (kp.score < mkRat 3 10))) = false := by
  decide

/-- Helper: fullPose classifies as the raised-hand prompt. -/
theorem fullPose_prompt :
    classifyPrompt fullPose = "The child raised their hand. How should I respond?" := by
  decide

/-- Claim C1 fails on the code: the reentrancy guards compare against the
isAiResponding value captured when the mount effect installed the handlers
(always false), not against the current flag, so a speech result and a pose
tick arriving while the busy flag is already set each start a fresh exchange
(the chat call is issued) instead of being ignored. -/
theorem c1_busy_events_not_ignored :
    busyState.isAiResponding = true ∧
    Effect.fetchCall "hello" ∈
      (onresultJsx capturedIsAiResponding "hello" envHello busyState).2 ∧
    Effect.fetchCall "The child raised their hand. How should I respond?" ∈
      (detectPoseJsx capturedIsAiResponding (gestureTick envHello) busyState).2 := by
  decide

/-- Claim C2 fails on the code: a fully successful PoseDetection.jsx exchange
(the reply is spoken) ends with the busy flag still set, because that variant
never calls setIsAiResponding(false); and a PoseDetection.tsx tick that sets
the flag and then exits on the no-clear-pose branch also leaves the flag set,
because only the finally around the fetch/speak clears it. -/
theorem c2_flag_left_set :
    ((detectPoseJsx capturedIsAiResponding (gestureTick envHello) initialState).1.isAiResponding = true ∧
     Effect.speak "Hi there" ∈
       (detectPoseJsx capturedIsAiResponding (gestureTick envHello) initialState).2) ∧
    (detectPoseTsx capturedIsAiResponding blurTick initialState).1.isAiResponding = true := by
  decide

/-- The 500 response body and response used for the chat-failure scenario. -/
def r500 : HttpResponse :=
  { ok := false, status := 500,
    json := some { choices := none, error := some "Internal server error" } }

/-- Claim C3, counterexample: on an HTTP 500 the useOpenAI fetchAIResponse
does not fail explicitly: it returns the fallback string, and the
PoseDetection.jsx controller then speaks that fallback and leaves the busy
flag set, contradicting fail-explicitly, no-speech and flag-cleared. -/
theorem c3_http500_fallback_spoken :
    fetchAIResponseHook (FetchEnv.ok r500) = (fallbackText, true) ∧
    Effect.speak fallbackText ∈
      (detectPoseJsx capturedIsAiResponding (gestureTick (FetchEnv.ok r500)) initialState).2 ∧
    (detectPoseJsx capturedIsAiResponding (gestureTick (FetchEnv.ok r500)) initialState).1.isAiResponding = true := by
  decide

/-- Claim C3, amended: on a transport error or non-success status the
useOpenAI fetchAIResponse catches the failure, records the error and returns
the fallback text, which the PoseDetection.jsx controller then speaks with
the busy flag left set; only the PoseDetection.tsx variant matches the claim:
its local fetchAIResponse raises (a 500 body carries no choices array), and
its controller attempts no speech for that exchange and clears the busy flag
in the finally block. -/
theorem c3_chat_failure_behavior :
    ∀ (r : HttpResponse) (data : ChatData) (s : CtrlState),
      r.ok = false → r.json = some data → data.choices = none →
      (fetchAIResponseHook (FetchEnv.ok r) = (fallbackText, true) ∧
       fetchAIResponseTsx (FetchEnv.ok r) = Except.error () ∧
       ((detectPoseTsx false (gestureTick (FetchEnv.ok r)) s).1.isAiResponding = false ∧
        (∀ t : String,
          Effect.speak t ∉ (detectPoseTsx false (gestureTick (FetchEnv.ok r)) s).2)) ∧
       (Effect.speak fallbackText ∈
          (detectPoseJsx false (gestureTick (FetchEnv.ok r)) s).2 ∧
        (detectPoseJsx false (gestureTick (FetchEnv.ok r)) s).1.isAiResponding = true)) := by
  intro r data s hok hj hch
  have hfetchH : fetchAIResponseHook (FetchEnv.ok r) = (fallbackText, true) := by
    simp [fetchAIResponseHook, hj, hok]
  have hfetchT : fetchAIResponseTsx (FetchEnv.ok r) = Except.error () := by
    simp [fetchAIResponseTsx, hj, hch]
  refine ⟨hfetchH, hfetchT, ⟨?_, ?_⟩, ⟨?_, ?_⟩⟩
  · simp [detectPoseTsx, gestureTick, fullPose_not_blurry, fullPose_prompt, hfetchT]
  · intro t
    simp [detectPoseTsx, gestureTick, fullPose_not_blurry, fullPose_prompt, hfetchT]
  · simp [detectPoseJsx, gestureTick, fullPose_not_blurry, fullPose_prompt, hfetchH]
  · simp [detectPoseJsx, gestureTick, fullPose_not_blurry, fullPose_prompt, hfetchH]

/-- Witness for the amended claim C3 at the concrete 500 response and the
initial state. -/
theorem c3_chat_failure_behavior_witness :
    fetchAIResponseHook (FetchEnv.ok r500) = (fallbackText, true) ∧
    fetchAIResponseTsx (FetchEnv.ok r500) = Except.error () ∧
    ((detectPoseTsx false (gestureTick (FetchEnv.ok r500)) initialState).1.isAiResponding = false ∧
     (∀ t : String,
       Effect.speak t ∉ (detectPoseTsx false (gestureTick (FetchEnv.ok r500)) initialState).2)) ∧
    (Effect.speak fallbackText ∈
       (detectPoseJsx false (gestureTick (FetchEnv.ok r500)) initialState).2 ∧
     (detectPoseJsx false (gestureTick (FetchEnv.ok r500)) initialState).1.isAiResponding = true) :=
  c3_chat_failure_behavior r500
    { choices := none, error := some "Internal server error" } initialState
    rfl rfl rfl

/-- The state after the first speech exchange in PoseDetection.jsx: the
assistant has just spoken "Hi there". -/
def echoStateJsx : CtrlState :=
  (onresultJsx capturedIsAiResponding "hi" envHello initialState).1

/-- The state after the first speech exchange in the useSpeechRecognition
hook: the assistant has just spoken "Hi there" and stored it. -/
def echoStateHook : CtrlState :=
  (onresultHook capturedIsAiResponding "hi" envHello initialState).1

/-- Claim C5 fails on PoseDetection.jsx: after an exchange whose spoken reply
was "Hi there", lastAiResponse is still the empty string (it is never
reassigned), so the echoed transcript "Hi there" is not discarded and a new
chat call is issued; the unnamed useSpeechRecognition hook does store the
reply, and there the same echoed transcript is discarded without a chat
call. -/
theorem c5_echo_not_suppressed_in_jsx :
    (echoStateJsx.aiResponse = "Hi there" ∧
     echoStateJsx.lastAiResponse = "" ∧
     Effect.fetchCall "Hi there" ∈
       (onresultJsx capturedIsAiResponding "Hi there" envHello echoStateJsx).2) ∧
    (echoStateHook.lastAiResponse = "Hi there" ∧
     Effect.fetchCall "Hi there" ∉
       (onresultHook capturedIsAiResponding "Hi there" envHello echoStateHook).2) := by
  decide
